import Mathlib

/-!
Shallow embedding of the vocabulary-publication service (`app.py`) and
verification of its specified behaviour.  Pure parts (template rendering,
repository search) are translated directly; the remote GitHub surface is
modelled as a record of outcome functions, and the orchestration threads an
explicit trace of the remote repository calls it issues.
-/

namespace App

/-- Snapshot of `datetime.datetime.now()` taken at request time, restricted to
the fields the source formats with `strftime`. -/
structure DateTime where
  year : Nat
  month : Nat
  day : Nat
  hour : Nat
  minute : Nat
deriving DecidableEq

/-- Zero-pad a number to two digits, as the `%m`, `%d`, `%H`, `%M` strftime
directives do. -/
def pad2 (n : Nat) : String :=
  if n < 10 then "0" ++ toString n else toString n

/-- Zero-pad a number to four digits, as the `%Y` strftime directive does. -/
def pad4 (n : Nat) : String :=
  if n < 10 then "000" ++ toString n
  else if n < 100 then "00" ++ toString n
  else if n < 1000 then "0" ++ toString n
  else toString n

/-- Embedding of `date.strftime('%Y%m%d%H%M')` (app.py line 187). -/
def strftime_timestamp (d : DateTime) : String :=
  pad4 d.year ++ pad2 d.month ++ pad2 d.day ++ pad2 d.hour ++ pad2 d.minute

/-- Embedding of `date.strftime('%d/%m/%Y')` (app.py line 189). -/
def strftime_date (d : DateTime) : String :=
  pad2 d.day ++ "/" ++ pad2 d.month ++ "/" ++ pad4 d.year

/-- Embedding of `date.strftime('%d/%m/%Y %H:%M')` (app.py line 188). -/
def strftime_datetime (d : DateTime) : String :=
  strftime_date d ++ " " ++ pad2 d.hour ++ ":" ++ pad2 d.minute

/-- Left-to-right, non-overlapping replacement of `pat` by `rep` in a character
list, the semantics of Python `str.replace` for the non-empty patterns used by
the source.  The fuel argument (instantiated with the length of the subject) only
serves to make the recursion structural. -/
def replaceAllFuel (pat rep : List Char) : Nat → List Char → List Char
  | 0, s => s
  | _ + 1, [] => []
  | fuel + 1, c :: cs =>
    if !pat.isEmpty && pat.isPrefixOf (c :: cs) then
      rep ++ replaceAllFuel pat rep fuel ((c :: cs).drop pat.length)
    else
      c :: replaceAllFuel pat rep fuel cs

/-- Embedding of Python `s.replace(pat, rep)` on strings. -/
def pyReplace (s pat rep : String) : String :=
  String.mk (replaceAllFuel pat.data rep.data s.data.length s.data)

/-- Whether `pat` occurs as a contiguous substring of `s` (Python `pat in s`). -/
def occursB (pat : List Char) : List Char → Bool
  | [] => pat.isEmpty
  | c :: cs => pat.isPrefixOf (c :: cs) || occursB pat cs

/-- Embedding of the placeholder-substitution loop body (app.py lines 186-189):
the chained `str.replace` calls over the four recognized placeholders, applied
to one template string. -/
def render (t : String) (vocabulary_name : String) (date : DateTime) : String :=
  pyReplace
    (pyReplace
      (pyReplace
        (pyReplace t "%vocabulary_name%" vocabulary_name)
        "%timestamp%" (strftime_timestamp date))
      "%datetime%" (strftime_datetime date))
    "%date%" (strftime_date date)

/-- The four configured templates (app.py lines 41-44).  Environment loading is
plumbing; the embedding takes them as an explicit record. -/
structure Config where
  github_commit_branch_tpl : String
  github_commit_message_tpl : String
  github_pr_title_tpl : String
  github_pr_desc_tpl : String
deriving DecidableEq

/-- The default template values from app.py lines 41-44. -/
def default_config : Config :=
  { github_commit_branch_tpl := "%timestamp%_%vocabulary_name%"
    github_commit_message_tpl := "Commit into %vocabulary_name% vocabulary"
    github_pr_title_tpl := "Release: %date% - %vocabulary_name%"
    github_pr_desc_tpl := "Description of the release" }

/-- The working result dictionary `res` of `publish_file_to_github`
(app.py lines 177-183), with its seven keys in insertion order. -/
structure Res where
  repository : String
  filename : String
  branch : String
  commit_msg : String
  pr_title : String
  pr_description : String
  pr_url : String
deriving DecidableEq

/-- Embedding of the loop `for x in res: res[x] = ...` (app.py lines 185-189):
the substitution is applied to every field of the working record. -/
def substRes (r : Res) (vocabulary_name : String) (date : DateTime) : Res :=
  { repository := render r.repository vocabulary_name date
    filename := render r.filename vocabulary_name date
    branch := render r.branch vocabulary_name date
    commit_msg := render r.commit_msg vocabulary_name date
    pr_title := render r.pr_title vocabulary_name date
    pr_description := render r.pr_description vocabulary_name date
    pr_url := render r.pr_url vocabulary_name date }

/-- The initial value of `res` before substitution (app.py lines 177-183). -/
def initial_res (cfg : Config) (file_name repo_full_name : String) : Res :=
  { repository := repo_full_name
    filename := file_name
    branch := cfg.github_commit_branch_tpl
    commit_msg := cfg.github_commit_message_tpl
    pr_title := cfg.github_pr_title_tpl
    pr_description := cfg.github_pr_desc_tpl
    pr_url := "" }

/-- The working record after the substitution loop has run. -/
def rendered_res (cfg : Config) (file_name vocabulary_name repo_full_name : String)
    (date : DateTime) : Res :=
  substRes (initial_res cfg file_name repo_full_name) vocabulary_name date

/-- A repository visible to an installation, reduced to the field the source
inspects. -/
structure Repo where
  full_name : String
deriving DecidableEq

/-- An installation of the GitHub app, exposing a list of repositories
(`installation.get_repos()`). -/
structure Installation where
  repos : List Repo
deriving DecidableEq

/-- Embedding of the repository search loop (app.py lines 196-200):

    repo = None
    for installation in github_integration.get_installations():
        for repo in installation.get_repos():
            if repo.full_name == res['repository']:
                repo = repo

Each inner iteration rebinds the loop variable `repo` to the current
repository; the assignment `repo = repo` guarded by the match is the identity,
which is why both branches of the `if` below yield `some r`. -/
def searchRepos (installations : List Installation) (target : String) : Option Repo :=
  installations.foldl
    (fun found installation =>
      installation.repos.foldl
        (fun _found r =>
          if r.full_name == target then some r else some r)
        found)
    none

/-- The Python exceptions that flow through `publish_file_to_github`:
`werkzeug` aborts (`abort(status, msg)` raises an `HTTPException`, which is a
subclass of `Exception`), the `UnknownObjectException` caught by the upsert
block, the ref-already-exists response from branch creation, and any other
fault from the remote host. -/
inductive PyExn where
  | http (status : Nat) (msg : String)
  | unknownObject
  | refAlreadyExists
  | fault (msg : String)
deriving DecidableEq

/-- The string attached when an exception is re-raised by `abort(500, e)`
(app.py line 231). -/
def pyMsg : PyExn → String
  | .http _ m => m
  | .unknownObject => "UnknownObjectException"
  | .refAlreadyExists => "Reference already exists"
  | .fault m => m

/-- Branch metadata returned by `repo.get_branch` (only `commit.sha` is
read by the source). -/
structure Branch where
  commit_sha : String
deriving DecidableEq

/-- File metadata returned by `repo.get_contents` (only `sha` is read). -/
structure ContentFile where
  sha : String
deriving DecidableEq

/-- Pull-request data returned by `repo.create_pull` (only `html_url` is
read). -/
structure PullRequest where
  html_url : String
deriving DecidableEq

/-- Ghost trace of the remote repository operations the orchestration issues,
recording each call with the arguments the source passes. -/
inductive Call where
  | get_branch (repo branch : String)
  | create_git_ref (repo ref sha : String)
  | get_contents (repo path : String)
  | update_file (repo path message content sha branch : String)
  | create_file (repo path message content branch : String)
  | create_pull (repo base head title body : String)
deriving DecidableEq

/-- The remote GitHub surface seen by one request: the installations the
integration enumerates, and the outcome of each repository operation the
source may invoke. -/
structure Remote where
  installations : List Installation
  get_branch : Repo → String → Except PyExn Branch
  create_git_ref : Repo → String → String → Except PyExn Unit
  get_contents : Repo → String → Except PyExn ContentFile
  update_file : Repo → String → String → String → String → String → Except PyExn Unit
  create_file : Repo → String → String → String → String → Except PyExn Unit
  create_pull : Repo → String → String → String → String → Except PyExn PullRequest

/-- Embedding of the upsert block (app.py lines 213-218):

    try:
        old_file = repo.get_contents(file_name)
        repo.update_file(file_name, commit_msg, content, old_file.sha, branch)
    except UnknownObjectException:
        repo.create_file(file_name, commit_msg, content, branch=branch)

Note that the raw `file_name` argument is used, not the substituted
`res['filename']`, and that the inner `except` catches `UnknownObjectException`
raised by either statement of the `try` body. -/
def upsert_step (world : Remote) (repo : Repo)
    (file_name commit_msg content branch : String) :
    Except PyExn Unit × List Call :=
  match world.get_contents repo file_name with
  | .ok old_file =>
    match world.update_file repo file_name commit_msg content old_file.sha branch with
    | .error .unknownObject =>
      (world.create_file repo file_name commit_msg content branch,
       [.get_contents repo.full_name file_name,
        .update_file repo.full_name file_name commit_msg content old_file.sha branch,
        .create_file repo.full_name file_name commit_msg content branch])
    | r =>
      (r,
       [.get_contents repo.full_name file_name,
        .update_file repo.full_name file_name commit_msg content old_file.sha branch])
  | .error .unknownObject =>
    (world.create_file repo file_name commit_msg content branch,
     [.get_contents repo.full_name file_name,
      .create_file repo.full_name file_name commit_msg content branch])
  | .error e => (.error e, [.get_contents repo.full_name file_name])

/-- Embedding of the body of the `try` block of `publish_file_to_github`
(app.py lines 175-227): substitution loop, repository search, branch
resolution and creation, file upsert, pull-request creation, and the final
update of `res['pr_url']`.  The first component is the outcome before the
outer `except Exception` handler runs; the second is the trace of repository
operations issued. -/
def publish_inner (world : Remote) (cfg : Config)
    (content file_name vocabulary_name repo_full_name : String)
    (date : DateTime) : Except PyExn Res × List Call :=
  match searchRepos world.installations
      (rendered_res cfg file_name vocabulary_name repo_full_name date).repository with
  | none => (.error (.http 401 "Not authorized to requested repository"), [])
  | some repo =>
    match world.get_branch repo "main" with
    | .error e => (.error e, [.get_branch repo.full_name "main"])
    | .ok sb =>
      match world.create_git_ref repo
          ("refs/heads/" ++ (rendered_res cfg file_name vocabulary_name repo_full_name date).branch)
          sb.commit_sha with
      | .error e =>
        (.error e,
         [.get_branch repo.full_name "main",
          .create_git_ref repo.full_name
            ("refs/heads/" ++ (rendered_res cfg file_name vocabulary_name repo_full_name date).branch)
            sb.commit_sha])
      | .ok _ =>
        match upsert_step world repo file_name
            (rendered_res cfg file_name vocabulary_name repo_full_name date).commit_msg
            content
            (rendered_res cfg file_name vocabulary_name repo_full_name date).branch with
        | (.error e, t) =>
          (.error e,
           [.get_branch repo.full_name "main",
            .create_git_ref repo.full_name
              ("refs/heads/" ++ (rendered_res cfg file_name vocabulary_name repo_full_name date).branch)
              sb.commit_sha] ++ t)
        | (.ok _, t) =>
          match world.create_pull repo "main"
              (rendered_res cfg file_name vocabulary_name repo_full_name date).branch
              (rendered_res cfg file_name vocabulary_name repo_full_name date).pr_title
              (rendered_res cfg file_name vocabulary_name repo_full_name date).pr_description with
          | .error e =>
            (.error e,
             [.get_branch repo.full_name "main",
              .create_git_ref repo.full_name
                ("refs/heads/" ++ (rendered_res cfg file_name vocabulary_name repo_full_name date).branch)
                sb.commit_sha] ++ t ++
             [.create_pull repo.full_name "main"
                (rendered_res cfg file_name vocabulary_name repo_full_name date).branch
                (rendered_res cfg file_name vocabulary_name repo_full_name date).pr_title
                (rendered_res cfg file_name vocabulary_name repo_full_name date).pr_description])
          | .ok pr =>
            (.ok { rendered_res cfg file_name vocabulary_name repo_full_name date with
                     pr_url := pr.html_url },
             [.get_branch repo.full_name "main",
              .create_git_ref repo.full_name
                ("refs/heads/" ++ (rendered_res cfg file_name vocabulary_name repo_full_name date).branch)
                sb.commit_sha] ++ t ++
             [.create_pull repo.full_name "main"
                (rendered_res cfg file_name vocabulary_name repo_full_name date).branch
                (rendered_res cfg file_name vocabulary_name repo_full_name date).pr_title
                (rendered_res cfg file_name vocabulary_name repo_full_name date).pr_description])

/-- Embedding of `publish_file_to_github` (app.py lines 160-233).  The whole
body runs inside `try: ... except Exception as e: abort(500, e)`, so every
exception raised inside the body, including the `abort(401)` of the
authorization check, is re-raised as an HTTP 500 abort. -/
def publish_file_to_github (world : Remote) (cfg : Config)
    (content file_name vocabulary_name repo_full_name : String)
    (date : DateTime) : Except PyExn Res × List Call :=
  match publish_inner world cfg content file_name vocabulary_name repo_full_name date with
  | (.ok r, t) => (.ok r, t)
  | (.error e, t) => (.error (.http 500 (pyMsg e)), t)

/-- Outcome of the query-parameter validation portion of the `/upload`
endpoint: either an abort with an HTTP status, or the call into
`publish_file_to_github` with the extracted parameters. -/
inductive EndpointOutcome where
  | abort (status : Nat) (msg : String)
  | publish_called (vocabulary_name : Option String) (repo_full_name : Option String)
deriving DecidableEq

/-- Embedding of the query-parameter validation of `upload_file`
(app.py lines 121-129) up to the invocation of `publish_file_to_github`
(line 147).  `args.get` yields `none` for an absent parameter and
`some value` otherwise.  The second guard (line 127) re-tests
`vocabulary_name`, exactly as the source does. -/
def upload_file (args_vocabulary_name args_repo_full_name : Option String) :
    EndpointOutcome :=
  let vocabulary_name := args_vocabulary_name
  if vocabulary_name = none then
    .abort 400 "Please provide vocabulary_name query parameter."
  else
    let repo_full_name := args_repo_full_name
    if vocabulary_name = none then
      .abort 400 "Please provide repo_full_name query parameter."
    else
      .publish_called vocabulary_name repo_full_name

/-! Concrete request data and simulated remotes used by the theorems below. -/

/-- The request time 2024-01-02T03:04:00 used by the end-to-end scenarios. -/
def d0 : DateTime := ⟨2024, 1, 2, 3, 4⟩

/-- A remote in which the integration has no installations at all: the only
situation in which the search loop leaves `repo` equal to `None`. -/
def no_repo_world : Remote :=
  { installations := []
    get_branch := fun _ _ => .error (.fault "unreachable")
    create_git_ref := fun _ _ _ => .error (.fault "unreachable")
    get_contents := fun _ _ => .error (.fault "unreachable")
    update_file := fun _ _ _ _ _ _ => .error (.fault "unreachable")
    create_file := fun _ _ _ _ _ => .error (.fault "unreachable")
    create_pull := fun _ _ _ _ _ => .error (.fault "unreachable") }

/-- A remote whose single installation exposes only `org/other`, with the
branch lookup failing, so that a run against it shows which repository the
workflow proceeds with. -/
def mismatch_world : Remote :=
  { no_repo_world with
    installations := [⟨[⟨"org/other"⟩]⟩]
    get_branch := fun _ _ => .error (.fault "network down") }

/-- A remote on which every step of the workflow succeeds, with the file
reported absent by the content lookup. -/
def success_world : Remote :=
  { installations := [⟨[⟨"org/vocabs"⟩]⟩]
    get_branch := fun _ _ => .ok ⟨"sha0"⟩
    create_git_ref := fun _ _ _ => .ok ()
    get_contents := fun _ _ => .error .unknownObject
    update_file := fun _ _ _ _ _ _ => .ok ()
    create_file := fun _ _ _ _ _ => .ok ()
    create_pull := fun _ _ _ _ _ => .ok ⟨"http://pr/1"⟩ }

/-- Like `success_world` but the pull-request creation step always fails. -/
def pr_fail_world : Remote :=
  { success_world with create_pull := fun _ _ _ _ _ => .error (.fault "pr failed") }

/-- Like `success_world` but branch creation fails with the ref-already-exists
response. -/
def conflict_world : Remote :=
  { no_repo_world with
    installations := [⟨[⟨"org/vocabs"⟩]⟩]
    get_branch := fun _ _ => .ok ⟨"sha0"⟩
    create_git_ref := fun _ _ _ => .error .refAlreadyExists }

/-! Helper lemmas, shared by the claim theorems. -/

/-- Replacement of a pattern that does not occur in the subject is the
identity, for any amount of fuel. -/
theorem replaceAllFuel_of_not_occurs (pat rep : List Char) (fuel : Nat) :
    ∀ s : List Char, occursB pat s = false → replaceAllFuel pat rep fuel s = s := by
  induction fuel with
  | zero => intro s _; rfl
  | succ n ih =>
    intro s h
    cases s with
    | nil => rfl
    | cons c cs =>
      rw [occursB, Bool.or_eq_false_iff] at h
      rw [replaceAllFuel, h.1, Bool.and_false, if_neg (by simp), ih cs h.2]

/-- String-level version of `replaceAllFuel_of_not_occurs`. -/
theorem pyReplace_of_not_occurs (s pat rep : String)
    (h : occursB pat.data s.data = false) : pyReplace s pat rep = s := by
  unfold pyReplace
  rw [replaceAllFuel_of_not_occurs pat.data rep.data s.data.length s.data h]

/-- The `except Exception` wrapper (app.py lines 229-231): any exception from
the body is surfaced as an HTTP 500 abort carrying the cause, with the trace
of issued calls unchanged. -/
theorem publish_of_inner_error (world : Remote) (cfg : Config)
    (content file_name vocabulary_name repo_full_name : String) (date : DateTime)
    (e : PyExn) (t : List Call)
    (h : publish_inner world cfg content file_name vocabulary_name repo_full_name date
           = (.error e, t)) :
    publish_file_to_github world cfg content file_name vocabulary_name repo_full_name date
      = (.error (.http 500 (pyMsg e)), t) := by
  unfold publish_file_to_github
  rw [h]

/-- The outer exception handler does not change the trace of issued calls. -/
theorem publish_trace_eq_inner (world : Remote) (cfg : Config)
    (content file_name vocabulary_name repo_full_name : String) (date : DateTime) :
    (publish_file_to_github world cfg content file_name vocabulary_name repo_full_name date).2
      = (publish_inner world cfg content file_name vocabulary_name repo_full_name date).2 := by
  unfold publish_file_to_github
  rcases h : publish_inner world cfg content file_name vocabulary_name repo_full_name date
    with ⟨r, t⟩
  cases r <;> simp

/-- Every run of the upsert block issues the content lookup on the raw
`file_name` argument. -/
theorem get_contents_mem_upsert_trace (world : Remote) (repo : Repo)
    (file_name commit_msg content branch : String) :
    Call.get_contents repo.full_name file_name
      ∈ (upsert_step world repo file_name commit_msg content branch).2 := by
  unfold upsert_step
  split
  · split <;> simp
  · simp
  · simp

/-! Claim theorems. -/

/-- C1 (code bug, evaluation at the failing input): the repository search does
NOT return the first repository whose full name matches the request, and does
NOT yield the not-authorized outcome when no repository matches.  The loop
variable `repo` overwrites the accumulator on every iteration and the guarded
assignment `repo = repo` is a no-op, so the search ends at the LAST enumerated
repository whenever any repository exists: with repositories
`[org/vocabs, org/other]` and target `org/vocabs` it yields `org/other`; with
only `org/other` visible and target `org/vocabs` it still yields `org/other`
instead of the not-authorized `none`; `none` is produced only when no
repository exists at all. -/
theorem search_keeps_last_repo :
    searchRepos [⟨[⟨"org/vocabs"⟩, ⟨"org/other"⟩]⟩] "org/vocabs" = some ⟨"org/other"⟩
    ∧ searchRepos [⟨[⟨"org/other"⟩]⟩] "org/vocabs" = some ⟨"org/other"⟩
    ∧ searchRepos [] "org/vocabs" = none := ⟨rfl, rfl, rfl⟩

/-- C2 (code bug, evaluation at the failing input): when the requested
repository is not visible, the caller never receives an authorization failure.
With no installations, the `abort(401)` raised inside the `try` block is
caught by `except Exception` and re-raised as an HTTP 500 server fault; with a
non-matching repository visible, no authorization check fires at all and the
workflow proceeds to call the remote on the wrong repository (`org/other`). -/
theorem auth_failure_surfaces_500 :
    (publish_file_to_github no_repo_world default_config
        "content" "animals.rdf" "animals" "org/unknown" d0).1
      = .error (.http 500 "Not authorized to requested repository")
    ∧ publish_file_to_github mismatch_world default_config
        "content" "animals.rdf" "animals" "org/unknown" d0
      = (.error (.http 500 "network down"), [.get_branch "org/other" "main"]) :=
  ⟨rfl, rfl⟩

/-- C5 (counterexample): a request carrying an empty-string vocabulary name is
not rejected by validation; the endpoint proceeds to invoke the publication
workflow, contradicting the claim that an empty vocabulary name yields a
validation error before any remote call. -/
theorem empty_vocabulary_not_rejected :
    upload_file (some "") (some "org/vocabs")
      = .publish_called (some "") (some "org/vocabs") := rfl

/-- C5 (amended): a request whose `vocabulary_name` query parameter is missing
receives an HTTP 400 validation error before the publication workflow (and
hence any remote call) is reached; a present-but-empty vocabulary name passes
validation and the workflow proceeds. -/
theorem missing_vocabulary_rejected :
    (∀ repo : Option String,
      upload_file none repo
        = .abort 400 "Please provide vocabulary_name query parameter.")
    ∧ (∀ repo : Option String,
      upload_file (some "") repo = .publish_called (some "") repo) :=
  ⟨fun _ => rfl, fun _ => rfl⟩

/-- C7: with vocabulary name `animals` and request time 2024-01-02T03:04:00,
the default branch template `%timestamp%_%vocabulary_name%` renders to
`202401020304_animals` and the default pull-request title template
`Release: %date% - %vocabulary_name%` renders to
`Release: 02/01/2024 - animals`. -/
theorem default_templates_render :
    render default_config.github_commit_branch_tpl "animals" ⟨2024, 1, 2, 3, 4⟩
        = "202401020304_animals"
    ∧ render default_config.github_pr_title_tpl "animals" ⟨2024, 1, 2, 3, 4⟩
        = "Release: 02/01/2024 - animals" := ⟨rfl, rfl⟩

/-- C8: a template in which none of the four recognized placeholder tokens
occurs as a substring is returned unchanged by the rendering step; in
particular, unrecognized placeholder-like substrings are left verbatim. -/
theorem render_pass_through (t vocabulary_name : String) (date : DateTime)
    (h1 : occursB "%vocabulary_name%".data t.data = false)
    (h2 : occursB "%timestamp%".data t.data = false)
    (h3 : occursB "%datetime%".data t.data = false)
    (h4 : occursB "%date%".data t.data = false) :
    render t vocabulary_name date = t := by
  unfold render
  rw [pyReplace_of_not_occurs t _ _ h1, pyReplace_of_not_occurs t _ _ h2,
      pyReplace_of_not_occurs t _ _ h3, pyReplace_of_not_occurs t _ _ h4]

/-- Witness for C8: a template containing the unrecognized placeholder
`%file_id%` and none of the four recognized tokens is returned verbatim. -/
theorem render_pass_through_witness :
    render "Upload %file_id% now" "animals" d0 = "Upload %file_id% now" :=
  render_pass_through "Upload %file_id% now" "animals" d0 rfl rfl rfl rfl

/-- C10: a request that provides `vocabulary_name` but omits `repo_full_name`
is not rejected with a 400 validation error, because the second guard re-tests
`vocabulary_name`; the publication workflow is invoked with a missing (`none`)
repository full name. -/
theorem missing_repo_param_not_rejected (v : String) :
    upload_file (some v) none = .publish_called (some v) none := rfl

/-- C3: whenever the pull-request creation call fails, the orchestration
returns an error outcome, never a success record: the exception propagates to
the outer handler and is surfaced as an HTTP 500 abort, so a result record
exists only when a pull request was successfully opened. -/
theorem pr_failure_never_result (world : Remote) (cfg : Config)
    (content file_name vocabulary_name repo_full_name : String) (date : DateTime)
    (h : ∀ repo base head title body, ∃ e,
      world.create_pull repo base head title body = Except.error e) :
    ∃ e t, publish_file_to_github world cfg content file_name vocabulary_name
        repo_full_name date = (.error e, t) := by
  have hinner : ∃ e t, publish_inner world cfg content file_name vocabulary_name
      repo_full_name date = (.error e, t) := by
    unfold publish_inner
    split
    · exact ⟨_, _, rfl⟩
    · split
      · exact ⟨_, _, rfl⟩
      · split
        · exact ⟨_, _, rfl⟩
        · split
          · exact ⟨_, _, rfl⟩
          · obtain ⟨e, he⟩ := h _ "main" _ _ _
            rw [he]
            exact ⟨_, _, rfl⟩
  obtain ⟨e, t, ht⟩ := hinner
  exact ⟨_, _, publish_of_inner_error world cfg content file_name vocabulary_name
    repo_full_name date e t ht⟩

/-- Witness for C3: on a remote where branch creation and the file commit
succeed but pull-request creation fails, the orchestration returns an error. -/
theorem pr_failure_never_result_witness :
    ∃ e t, publish_file_to_github pr_fail_world default_config
        "content" "animals.rdf" "animals" "org/vocabs" d0 = (.error e, t) :=
  pr_failure_never_result pr_fail_world default_config "content" "animals.rdf"
    "animals" "org/vocabs" d0 (fun _ _ _ _ _ => ⟨.fault "pr failed", rfl⟩)

/-- C4: the file-upsert step is decided by the content lookup's outcome.  If
the lookup raises the content-not-found signal, only a create-file call is
issued (no update-file call appears in the trace); if the lookup returns
existing content, an update-file call carrying the previously read revision
marker is issued; any other lookup failure propagates unchanged out of the
upsert block, and every error of the workflow body is surfaced as an HTTP 500
server-side failure by the outer handler. -/
theorem upsert_decided_by_lookup (world : Remote) (repo : Repo)
    (file_name commit_msg content branch : String) :
    (world.get_contents repo file_name = .error .unknownObject →
      upsert_step world repo file_name commit_msg content branch
        = (world.create_file repo file_name commit_msg content branch,
           [.get_contents repo.full_name file_name,
            .create_file repo.full_name file_name commit_msg content branch]))
    ∧ (∀ old_file, world.get_contents repo file_name = .ok old_file →
        Call.update_file repo.full_name file_name commit_msg content old_file.sha branch
          ∈ (upsert_step world repo file_name commit_msg content branch).2)
    ∧ (∀ e, e ≠ PyExn.unknownObject →
        world.get_contents repo file_name = .error e →
        upsert_step world repo file_name commit_msg content branch
          = (.error e, [.get_contents repo.full_name file_name]))
    ∧ (∀ cfg content2 vocabulary_name repo_full_name date e t,
        publish_inner world cfg content2 file_name vocabulary_name repo_full_name date
          = (.error e, t) →
        publish_file_to_github world cfg content2 file_name vocabulary_name
            repo_full_name date
          = (.error (.http 500 (pyMsg e)), t)) := by
  refine ⟨?_, ?_, ?_, ?_⟩
  · intro h
    unfold upsert_step
    rw [h]
  · intro old_file h
    simp only [upsert_step, h]
    split <;> simp
  · intro e hne h
    unfold upsert_step
    rw [h]
    cases e with
    | unknownObject => exact absurd rfl hne
    | http s m => rfl
    | refAlreadyExists => rfl
    | fault m => rfl
  · intro cfg content2 vocabulary_name repo_full_name date e t h
    exact publish_of_inner_error world cfg content2 file_name vocabulary_name
      repo_full_name date e t h

/-- A remote on which the content lookup reports the file present with
revision marker `abc123`. -/
def present_file_world : Remote :=
  { success_world with get_contents := fun _ _ => .ok ⟨"abc123"⟩ }

/-- A remote on which the content lookup fails with a transient fault that is
not the content-not-found signal. -/
def lookup_fault_world : Remote :=
  { success_world with get_contents := fun _ _ => .error (.fault "rate limited") }

/-- Witness for C4: absent file yields the create-file call, present file
yields an update-file call carrying revision `abc123`, and a transient lookup
fault propagates out of the upsert block and surfaces as an HTTP 500. -/
theorem upsert_decided_by_lookup_witness :
    upsert_step success_world ⟨"org/vocabs"⟩ "animals.rdf" "msg" "content" "b1"
      = (.ok (), [.get_contents "org/vocabs" "animals.rdf",
                  .create_file "org/vocabs" "animals.rdf" "msg" "content" "b1"])
    ∧ Call.update_file "org/vocabs" "animals.rdf" "msg" "content" "abc123" "b1"
        ∈ (upsert_step present_file_world ⟨"org/vocabs"⟩ "animals.rdf" "msg" "content" "b1").2
    ∧ upsert_step lookup_fault_world ⟨"org/vocabs"⟩ "animals.rdf" "msg" "content" "b1"
        = (.error (.fault "rate limited"), [.get_contents "org/vocabs" "animals.rdf"])
    ∧ publish_file_to_github lookup_fault_world default_config
        "content" "animals.rdf" "animals" "org/vocabs" d0
        = (.error (.http 500 "rate limited"),
           [.get_branch "org/vocabs" "main",
            .create_git_ref "org/vocabs" "refs/heads/202401020304_animals" "sha0",
            .get_contents "org/vocabs" "animals.rdf"]) :=
  ⟨(upsert_decided_by_lookup success_world ⟨"org/vocabs"⟩ "animals.rdf" "msg"
      "content" "b1").1 rfl,
   (upsert_decided_by_lookup present_file_world ⟨"org/vocabs"⟩ "animals.rdf" "msg"
      "content" "b1").2.1 ⟨"abc123"⟩ rfl,
   (upsert_decided_by_lookup lookup_fault_world ⟨"org/vocabs"⟩ "animals.rdf" "msg"
      "content" "b1").2.2.1 (.fault "rate limited") (by decide) rfl,
   (upsert_decided_by_lookup lookup_fault_world ⟨"org/vocabs"⟩ "animals.rdf" "msg"
      "content" "b1").2.2.2 default_config "content" "animals" "org/vocabs" d0
      (.fault "rate limited") _ rfl⟩

/-- C6 (counterexample): when branch creation fails with the
ref-already-exists response, the caller does not receive a conflict response:
the exception is caught by the blanket handler and surfaced as an HTTP 500
server fault (though, as the trace shows, no file or pull-request calls are
attempted afterwards). -/
theorem branch_conflict_surfaces_500 :
    publish_file_to_github conflict_world default_config
        "content" "animals.rdf" "animals" "org/vocabs" d0
      = (.error (.http 500 "Reference already exists"),
         [.get_branch "org/vocabs" "main",
          .create_git_ref "org/vocabs" "refs/heads/202401020304_animals" "sha0"]) := rfl

/-- C6 (amended): whenever the branch-creation call fails with the
ref-already-exists response, the orchestration aborts with an HTTP 500
server-side failure carrying the underlying cause, and no file-upsert or
pull-request calls are attempted afterwards (the trace ends at the
branch-creation call). -/
theorem branch_conflict_aborts (world : Remote) (cfg : Config)
    (content file_name vocabulary_name repo_full_name : String) (date : DateTime)
    (repo : Repo) (sb : Branch)
    (hs : searchRepos world.installations (render repo_full_name vocabulary_name date)
            = some repo)
    (hb : world.get_branch repo "main" = .ok sb)
    (hr : world.create_git_ref repo
            ("refs/heads/" ++ render cfg.github_commit_branch_tpl vocabulary_name date)
            sb.commit_sha = .error .refAlreadyExists) :
    publish_file_to_github world cfg content file_name vocabulary_name repo_full_name date
      = (.error (.http 500 "Reference already exists"),
         [.get_branch repo.full_name "main",
          .create_git_ref repo.full_name
            ("refs/heads/" ++ render cfg.github_commit_branch_tpl vocabulary_name date)
            sb.commit_sha]) := by
  have hrep : (rendered_res cfg file_name vocabulary_name repo_full_name date).repository
      = render repo_full_name vocabulary_name date := rfl
  have hbr : (rendered_res cfg file_name vocabulary_name repo_full_name date).branch
      = render cfg.github_commit_branch_tpl vocabulary_name date := rfl
  have hinner : publish_inner world cfg content file_name vocabulary_name repo_full_name date
      = (.error .refAlreadyExists,
         [.get_branch repo.full_name "main",
          .create_git_ref repo.full_name
            ("refs/heads/" ++ render cfg.github_commit_branch_tpl vocabulary_name date)
            sb.commit_sha]) := by
    simp only [publish_inner, hrep, hbr, hs, hb, hr]
  exact publish_of_inner_error world cfg content file_name vocabulary_name
    repo_full_name date .refAlreadyExists _ hinner

/-- Witness for C6's amended theorem: a concrete run (vocabulary `plants`)
against a remote whose branch creation reports ref-already-exists aborts with
HTTP 500 and issues no calls past the branch creation. -/
theorem branch_conflict_aborts_witness :
    publish_file_to_github conflict_world default_config
        "data" "plants.rdf" "plants" "org/vocabs" d0
      = (.error (.http 500 "Reference already exists"),
         [.get_branch "org/vocabs" "main",
          .create_git_ref "org/vocabs" "refs/heads/202401020304_plants" "sha0"]) :=
  branch_conflict_aborts conflict_world default_config "data" "plants.rdf" "plants"
    "org/vocabs" d0 ⟨"org/vocabs"⟩ ⟨"sha0"⟩ rfl rfl rfl

/-- C9 (counterexample): with `file_name = "%vocabulary_name%.rdf"` the
substitution loop rewrites the record's filename field to `animals.rdf`, but
the content-lookup and create-file calls are issued with the raw, unrewritten
`%vocabulary_name%.rdf`, contradicting the claim that the pushed file name is
rewritten before the file push uses it. -/
theorem raw_filename_pushed :
    publish_file_to_github success_world default_config
        "content" "%vocabulary_name%.rdf" "animals" "org/vocabs" d0
      = (.ok { repository := "org/vocabs", filename := "animals.rdf",
               branch := "202401020304_animals",
               commit_msg := "Commit into animals vocabulary",
               pr_title := "Release: 02/01/2024 - animals",
               pr_description := "Description of the release",
               pr_url := "http://pr/1" },
         [.get_branch "org/vocabs" "main",
          .create_git_ref "org/vocabs" "refs/heads/202401020304_animals" "sha0",
          .get_contents "org/vocabs" "%vocabulary_name%.rdf",
          .create_file "org/vocabs" "%vocabulary_name%.rdf"
            "Commit into animals vocabulary" "content" "202401020304_animals",
          .create_pull "org/vocabs" "main" "202401020304_animals"
            "Release: 02/01/2024 - animals" "Description of the release"]) := rfl

/-- C9 (amended): the substitution loop rewrites every field of the working
record, including the repository full name and the filename, and the
repository lookup uses the rewritten repository name; but the content-lookup
(and hence the file push) is issued with the original `file_name` argument,
the rewritten filename appearing only in the returned record. -/
theorem subst_fields_usage (world : Remote) (cfg : Config)
    (content file_name vocabulary_name repo_full_name : String) (date : DateTime) :
    (rendered_res cfg file_name vocabulary_name repo_full_name date).repository
        = render repo_full_name vocabulary_name date
    ∧ (rendered_res cfg file_name vocabulary_name repo_full_name date).filename
        = render file_name vocabulary_name date
    ∧ (searchRepos world.installations (render repo_full_name vocabulary_name date) = none →
        publish_file_to_github world cfg content file_name vocabulary_name repo_full_name date
          = (.error (.http 500 "Not authorized to requested repository"), []))
    ∧ (∀ repo sb,
        searchRepos world.installations (render repo_full_name vocabulary_name date)
            = some repo →
        world.get_branch repo "main" = .ok sb →
        world.create_git_ref repo
            ("refs/heads/" ++ render cfg.github_commit_branch_tpl vocabulary_name date)
            sb.commit_sha = .ok () →
        Call.get_contents repo.full_name file_name
          ∈ (publish_file_to_github world cfg content file_name vocabulary_name
              repo_full_name date).2) := by
  have hrep : (rendered_res cfg file_name vocabulary_name repo_full_name date).repository
      = render repo_full_name vocabulary_name date := rfl
  have hbr : (rendered_res cfg file_name vocabulary_name repo_full_name date).branch
      = render cfg.github_commit_branch_tpl vocabulary_name date := rfl
  refine ⟨rfl, rfl, ?_, ?_⟩
  · intro hnone
    exact publish_of_inner_error world cfg content file_name vocabulary_name
      repo_full_name date (.http 401 "Not authorized to requested repository") []
      (by simp only [publish_inner, hrep, hnone])
  · intro repo sb hs hb hr
    rw [publish_trace_eq_inner]
    simp only [publish_inner, hrep, hbr, hs, hb, hr]
    have hmem := get_contents_mem_upsert_trace world repo file_name
      (rendered_res cfg file_name vocabulary_name repo_full_name date).commit_msg content
      (render cfg.github_commit_branch_tpl vocabulary_name date)
    rcases hu : upsert_step world repo file_name
        (rendered_res cfg file_name vocabulary_name repo_full_name date).commit_msg content
        (render cfg.github_commit_branch_tpl vocabulary_name date) with ⟨r, t⟩
    rw [hu] at hmem
    cases r with
    | error e => simp [hmem]
    | ok u =>
      split <;> first
      | (split <;> simp_all)
      | simp_all

/-- Witness for C9's amended theorem: on a fully succeeding remote, the
content lookup is issued with the raw `%vocabulary_name%.rdf`. -/
theorem subst_fields_usage_witness :
    Call.get_contents "org/vocabs" "%vocabulary_name%.rdf"
      ∈ (publish_file_to_github success_world default_config
          "content" "%vocabulary_name%.rdf" "animals" "org/vocabs" d0).2 :=
  (subst_fields_usage success_world default_config "content" "%vocabulary_name%.rdf"
      "animals" "org/vocabs" d0).2.2.2 ⟨"org/vocabs"⟩ ⟨"sha0"⟩ rfl rfl rfl

end App
